import Mathlib

unseal Rat.mul Rat.inv Rat.add Rat.sub Rat.ofScientific Nat.gcd

/-!
Shallow embedding of the StockApp Melchisédech server (Express + Mongoose).

The data model follows the Mongoose schemas `ProductSchema`, `SaleSchema`,
`PurchaseSchema`; the operations follow the route handlers for
`POST /api/sales`, `POST /api/purchases`, `GET /api/products`,
`GET /api/sales`, `GET /api/purchases`.

Modelling choices:
  * quantities are `Int` (Mongoose `Number` with `min` validators),
    prices are `Rat`;
  * the Mongo store is a `Store` record holding the three collections as
    lists; `Model.find()` returns the list, `.sort({f: 1})` is a merge
    sort on `f`;
  * `document.save()` runs the schema validators (`min: 1` on sold /
    purchased quantities, `min: 0.01` on unit prices, `min: 0` on product
    quantity and minStockLevel); a thrown validation error or store
    failure is caught by the handler's `catch` which answers 500.
    Possible store failures are modelled by oracle booleans (one per
    `save()` call);
  * `saleDate`/`purchaseDate` default to the creation instant, passed in
    as `now : Nat`.
-/

namespace StockApp

structure Product where
  id : Nat
  name : String
  quantity : Int
  price : Rat
  minStockLevel : Int
  deriving DecidableEq

structure Sale where
  productId : Nat
  productName : String
  unitPrice : Rat
  quantitySold : Int
  totalPrice : Rat
  saleDate : Nat
  deriving DecidableEq

structure Purchase where
  productId : Nat
  productName : String
  unitPrice : Rat
  quantityPurchased : Int
  totalPrice : Rat
  purchaseDate : Nat
  deriving DecidableEq

structure Store where
  products : List Product
  sales : List Sale
  purchases : List Purchase
  deriving DecidableEq

/-- An HTTP route outcome: a success status with a body, or an error status
with a `{message}` body. -/
inductive RouteResult (α : Type) where
  | success (status : Nat) (body : α)
  | failure (status : Nat) (message : String)
  deriving DecidableEq

/-- Schema lower bound `min: 0.01` on unit prices. -/
def minUnitPrice : Rat := 0.01

/-- Mongoose validation run by `newSale.save()`:
`quantitySold` has `min: 1`, `unitPrice` has `min: 0.01`. -/
def saleDocValid (s : Sale) : Bool :=
  decide (1 ≤ s.quantitySold) && decide (minUnitPrice ≤ s.unitPrice)

/-- Mongoose validation run by `newPurchase.save()`:
`quantityPurchased` has `min: 1`, `unitPrice` has `min: 0.01`. -/
def purchaseDocValid (p : Purchase) : Bool :=
  decide (1 ≤ p.quantityPurchased) && decide (minUnitPrice ≤ p.unitPrice)

/-- Mongoose validation run by `product.save()`:
`quantity` has `min: 0`, `price` has `min: 0.01`, `minStockLevel` has
`min: 0`. -/
def productDocValid (p : Product) : Bool :=
  decide (0 ≤ p.quantity) && decide (minUnitPrice ≤ p.price)
    && decide (0 ≤ p.minStockLevel)

/-- `Product.findById(productId)`. -/
def findById (st : Store) (productId : Nat) : Option Product :=
  st.products.find? (fun p => p.id == productId)

/-- Persisting a modified product document (`product.save()`): the stored
record with the same id is replaced. -/
def writeProduct (ps : List Product) (p : Product) : List Product :=
  ps.map (fun q => if q.id == p.id then p else q)

def msgSaleNotFound : String := "Produit non trouvé dans l\x27inventaire."

def msgInsufficient (product : Product) : String :=
  "Stock insuffisant pour " ++ product.name ++ ". Stock actuel: "
    ++ toString product.quantity ++ "."

def msgSaleErr : String := "Erreur lors de l\x27enregistrement de la vente: "

def msgPurchaseErr : String := "Erreur lors de l\x27enregistrement de l\x27achat: "

/-- The Sale document the handler constructs:
`new Sale({productId, productName, unitPrice, quantitySold, totalPrice: unitPrice * quantitySold})`
with `saleDate` defaulting to now. -/
def mkSaleDoc (product : Product) (quantitySold : Int) (unitPrice : Rat)
    (now : Nat) : Sale :=
  { productId := product.id
    productName := product.name
    unitPrice := unitPrice
    quantitySold := quantitySold
    totalPrice := unitPrice * (quantitySold : Rat)
    saleDate := now }

/-- The Purchase document the handler constructs. -/
def mkPurchaseDoc (product : Product) (quantityPurchased : Int)
    (unitPrice : Rat) (now : Nat) : Purchase :=
  { productId := product.id
    productName := product.name
    unitPrice := unitPrice
    quantityPurchased := quantityPurchased
    totalPrice := unitPrice * (quantityPurchased : Rat)
    purchaseDate := now }

/-- `POST /api/sales` handler: look the product up, answer 404 if absent,
answer 400 if `product.quantity < quantitySold`, otherwise save the new
Sale (validation or store failure → caught → 500), then decrement the
quantity and save the product (failure → caught → 500, the Sale already
persisted).  `saleSaveOk` / `prodSaveOk` are the store-failure oracles of
the two `save()` calls. -/
def recordSale (st : Store) (now : Nat) (saleSaveOk prodSaveOk : Bool)
    (productId : Nat) (quantitySold : Int) (unitPrice : Rat) :
    Store × RouteResult Sale :=
  match findById st productId with
  | none => (st, RouteResult.failure 404 msgSaleNotFound)
  | some product =>
    if product.quantity < quantitySold then
      (st, RouteResult.failure 400 (msgInsufficient product))
    else
      let newSale := mkSaleDoc product quantitySold unitPrice now
      if saleDocValid newSale && saleSaveOk then
        let st1 : Store := { st with sales := st.sales ++ [newSale] }
        let updated : Product :=
          { product with quantity := product.quantity - quantitySold }
        if productDocValid updated && prodSaveOk then
          ({ st1 with products := writeProduct st1.products updated },
           RouteResult.success 201 newSale)
        else
          (st1, RouteResult.failure 500 msgSaleErr)
      else
        (st, RouteResult.failure 500 msgSaleErr)

/-- `POST /api/purchases` handler: mirrors the sales handler without the
sufficiency check; the quantity is incremented. -/
def recordPurchase (st : Store) (now : Nat) (purchSaveOk prodSaveOk : Bool)
    (productId : Nat) (quantityPurchased : Int) (unitPrice : Rat) :
    Store × RouteResult Purchase :=
  match findById st productId with
  | none => (st, RouteResult.failure 404 msgSaleNotFound)
  | some product =>
    let newPurchase := mkPurchaseDoc product quantityPurchased unitPrice now
    if purchaseDocValid newPurchase && purchSaveOk then
      let st1 : Store := { st with purchases := st.purchases ++ [newPurchase] }
      let updated : Product :=
        { product with quantity := product.quantity + quantityPurchased }
      if productDocValid updated && prodSaveOk then
        ({ st1 with products := writeProduct st1.products updated },
         RouteResult.success 201 newPurchase)
      else
        (st1, RouteResult.failure 500 msgPurchaseErr)
    else
      (st, RouteResult.failure 500 msgPurchaseErr)

/-- `GET /api/products`: `Product.find().sort({ name: 1 })`. -/
def listProducts (st : Store) : List Product :=
  st.products.mergeSort (fun a b => decide (a.name ≤ b.name))

/-- `GET /api/sales`: `Sale.find().sort({ saleDate: -1 })`. -/
def listSales (st : Store) : List Sale :=
  st.sales.mergeSort (fun a b => decide (b.saleDate ≤ a.saleDate))

/-- `GET /api/purchases`: `Purchase.find().sort({ purchaseDate: -1 })`. -/
def listPurchases (st : Store) : List Purchase :=
  st.purchases.mergeSort (fun a b => decide (b.purchaseDate ≤ a.purchaseDate))

/-- A quantity-affecting API operation with its persistence oracles. -/
inductive Op where
  | sale (now : Nat) (saleSaveOk prodSaveOk : Bool) (productId : Nat)
      (quantitySold : Int) (unitPrice : Rat)
  | purchase (now : Nat) (purchSaveOk prodSaveOk : Bool) (productId : Nat)
      (quantityPurchased : Int) (unitPrice : Rat)

def applyOp (st : Store) : Op → Store
  | Op.sale now a b pid q up => (recordSale st now a b pid q up).1
  | Op.purchase now a b pid q up => (recordPurchase st now a b pid q up).1

def applyOps (st : Store) (ops : List Op) : Store :=
  ops.foldl applyOp st

/-- Every stored product has a non-negative quantity. -/
abbrev quantitiesNonneg (st : Store) : Prop :=
  ∀ p ∈ st.products, 0 ≤ p.quantity

/-! ### Helper lemmas -/

theorem mem_writeProduct {ps : List Product} {u p : Product}
    (h : p ∈ writeProduct ps u) : p ∈ ps ∨ p = u := by
  unfold writeProduct at h
  rcases List.mem_map.1 h with ⟨x, hx, hmap⟩
  by_cases hid : (x.id == u.id) = true
  · right
    rw [← hmap]
    simp [hid]
  · left
    rw [← hmap]
    simpa [hid] using hx

theorem productDocValid_nonneg {p : Product} (h : productDocValid p = true) :
    0 ≤ p.quantity := by
  simp only [productDocValid, Bool.and_eq_true, decide_eq_true_eq] at h
  exact h.1.1

/-- A sale leaves the product table unchanged, or replaces one product by a
document that passed the product-schema validation. -/
theorem recordSale_products_cases (st : Store) (now : Nat) (a b : Bool)
    (pid : Nat) (q : Int) (up : Rat) :
    (recordSale st now a b pid q up).1.products = st.products ∨
      ∃ u, productDocValid u = true ∧
        (recordSale st now a b pid q up).1.products = writeProduct st.products u := by
  unfold recordSale
  split
  · exact Or.inl rfl
  · split
    · exact Or.inl rfl
    · dsimp only
      split
      · split
        · next h3 =>
            simp only [Bool.and_eq_true] at h3
            exact Or.inr ⟨_, h3.1, rfl⟩
        · exact Or.inl rfl
      · exact Or.inl rfl

/-- A purchase leaves the product table unchanged, or replaces one product
by a document that passed the product-schema validation. -/
theorem recordPurchase_products_cases (st : Store) (now : Nat) (a b : Bool)
    (pid : Nat) (q : Int) (up : Rat) :
    (recordPurchase st now a b pid q up).1.products = st.products ∨
      ∃ u, productDocValid u = true ∧
        (recordPurchase st now a b pid q up).1.products = writeProduct st.products u := by
  unfold recordPurchase
  split
  · exact Or.inl rfl
  · dsimp only
    split
    · split
      · next h3 =>
          simp only [Bool.and_eq_true] at h3
          exact Or.inr ⟨_, h3.1, rfl⟩
      · exact Or.inl rfl
    · exact Or.inl rfl

theorem nonneg_applyOp {st : Store} (h : quantitiesNonneg st) (op : Op) :
    quantitiesNonneg (applyOp st op) := by
  have key : ∀ st2 : Store,
      (st2.products = st.products ∨
        ∃ u, productDocValid u = true ∧ st2.products = writeProduct st.products u) →
      quantitiesNonneg st2 := by
    intro st2 hcases p hp
    rcases hcases with heq | ⟨u, hu, heq⟩
    · exact h p (heq ▸ hp)
    · rcases mem_writeProduct (heq ▸ hp) with hmem | rfl
      · exact h p hmem
      · exact productDocValid_nonneg hu
  cases op with
  | sale now a b pid q up =>
    exact key _ (recordSale_products_cases st now a b pid q up)
  | purchase now a b pid q up =>
    exact key _ (recordPurchase_products_cases st now a b pid q up)

/-- C1: for every product, after any sequence of recordSale and
recordPurchase operations (each applied via POST /api/sales and
POST /api/purchases), the product's quantity is ≥ 0: starting from a store
whose quantities are all non-negative, quantity never goes negative. -/
theorem C1_quantity_never_negative (st : Store) (ops : List Op)
    (h : quantitiesNonneg st) : quantitiesNonneg (applyOps st ops) := by
  induction ops generalizing st with
  | nil => exact h
  | cons op rest ih => exact ih (applyOp st op) (nonneg_applyOp h op)

def w1Store : Store :=
  { products := [{ id := 0, name := "Widget", quantity := 5, price := 2, minStockLevel := 1 }]
    sales := []
    purchases := [] }

def w1Ops : List Op :=
  [Op.sale 1 true true 0 3 2,
   Op.purchase 2 true true 0 4 1,
   Op.sale 3 true true 0 10 2,
   Op.sale 4 true false 0 2 2]

/-- Witness for C1 at a concrete store and operation sequence. -/
theorem C1_quantity_never_negative_witness :
    quantitiesNonneg w1Store ∧ quantitiesNonneg (applyOps w1Store w1Ops) :=
  ⟨by decide, C1_quantity_never_negative w1Store w1Ops (by decide)⟩

theorem find?_writeProduct (u : Product) (pid : Nat) :
    ∀ (ps : List Product) (p : Product),
      ps.find? (fun x => x.id == pid) = some p → u.id = p.id →
      (writeProduct ps u).find? (fun x => x.id == pid) = some u := by
  intro ps
  induction ps with
  | nil =>
    intro p h _
    simp [List.find?] at h
  | cons x rest ih =>
    intro p hfind hid
    have hpid : p.id = pid := by
      have := List.find?_some hfind
      simpa using this
    by_cases hx : (x.id == pid) = true
    · simp only [List.find?_cons, hx] at hfind
      injection hfind with hxp
      subst hxp
      have hxu : (x.id == u.id) = true := by
        simp [hid]
      have hu : (u.id == pid) = true := by
        simp [hid, hpid]
      simp only [writeProduct, List.map_cons, hxu, if_true, List.find?_cons, hu]
    · have hx0 : (x.id == pid) = false := by
        simpa using hx
      simp only [List.find?_cons, hx0] at hfind
      have hxu : (x.id == u.id) = false := by
        rw [hid, hpid]
        exact hx0
      simp only [writeProduct, List.map_cons, hxu, Bool.false_eq_true, if_false,
        List.find?_cons, hx0]
      simpa only [writeProduct] using ih p hfind hid

/-- Equation for the success path of `recordSale` with both persistence
steps succeeding. -/
theorem recordSale_success_eq (st : Store) (now : Nat) (pid : Nat) (q : Int)
    (up : Rat) (product : Product)
    (hfind : findById st pid = some product)
    (hsuff : ¬ product.quantity < q)
    (hq : 1 ≤ q) (hup : minUnitPrice ≤ up)
    (hprice : minUnitPrice ≤ product.price) (hmin : 0 ≤ product.minStockLevel) :
    recordSale st now true true pid q up =
      ({ products := writeProduct st.products
            { product with quantity := product.quantity - q },
         sales := st.sales ++ [mkSaleDoc product q up now],
         purchases := st.purchases },
       RouteResult.success 201 (mkSaleDoc product q up now)) := by
  have hvalid : (saleDocValid (mkSaleDoc product q up now) && true) = true := by
    simp [saleDocValid, mkSaleDoc, hq, hup]
  have hq0 : (0:Int) ≤ product.quantity - q := by omega
  have hpvalid :
      (productDocValid { product with quantity := product.quantity - q } && true) = true := by
    simp [productDocValid, hprice, hmin, hq0]
  unfold recordSale
  rw [hfind]
  dsimp only
  rw [if_neg hsuff, if_pos hvalid, if_pos hpvalid]

/-- Equation for the success path of `recordPurchase` with both persistence
steps succeeding. -/
theorem recordPurchase_success_eq (st : Store) (now : Nat) (pid : Nat) (q : Int)
    (up : Rat) (product : Product)
    (hfind : findById st pid = some product)
    (hq : 1 ≤ q) (hup : minUnitPrice ≤ up)
    (hqty : 0 ≤ product.quantity)
    (hprice : minUnitPrice ≤ product.price) (hmin : 0 ≤ product.minStockLevel) :
    recordPurchase st now true true pid q up =
      ({ products := writeProduct st.products
            { product with quantity := product.quantity + q },
         sales := st.sales,
         purchases := st.purchases ++ [mkPurchaseDoc product q up now] },
       RouteResult.success 201 (mkPurchaseDoc product q up now)) := by
  have hvalid : (purchaseDocValid (mkPurchaseDoc product q up now) && true) = true := by
    simp [purchaseDocValid, mkPurchaseDoc, hq, hup]
  have hq0 : (0:Int) ≤ product.quantity + q := by omega
  have hpvalid :
      (productDocValid { product with quantity := product.quantity + q } && true) = true := by
    simp [productDocValid, hprice, hmin, hq0]
  unfold recordPurchase
  rw [hfind]
  dsimp only
  rw [if_pos hvalid, if_pos hpvalid]

/-- C6: a successful recordSale on an existing product with sufficient
stock decrements the quantity by exactly the quantity sold, appends one
Sale row whose totalPrice is unitPrice × quantitySold and whose
productName is the product's name at the instant of the check, and answers
201 with the created Sale. -/
theorem C6_sale_success_effect (st : Store) (now : Nat) (pid : Nat) (q : Int)
    (up : Rat) (product : Product)
    (hfind : findById st pid = some product)
    (hsuff : ¬ product.quantity < q)
    (hq : 1 ≤ q) (hup : minUnitPrice ≤ up)
    (hprice : minUnitPrice ≤ product.price) (hmin : 0 ≤ product.minStockLevel) :
    (recordSale st now true true pid q up).2 =
        RouteResult.success 201 (mkSaleDoc product q up now) ∧
    (recordSale st now true true pid q up).1.sales =
        st.sales ++ [mkSaleDoc product q up now] ∧
    (mkSaleDoc product q up now).totalPrice = up * (q : Rat) ∧
    (mkSaleDoc product q up now).productName = product.name ∧
    findById (recordSale st now true true pid q up).1 pid =
        some { product with quantity := product.quantity - q } := by
  have h := recordSale_success_eq st now pid q up product hfind hsuff hq hup hprice hmin
  refine ⟨by rw [h], by rw [h], rfl, rfl, ?_⟩
  rw [h]
  exact find?_writeProduct _ pid st.products product hfind rfl

def w6Product : Product :=
  { id := 7, name := "Widget", quantity := 10, price := 1, minStockLevel := 2 }

def w6Store : Store := { products := [w6Product], sales := [], purchases := [] }

/-- Witness for C6: recordSale(pid, 3, 7.50) against quantity 10 yields
quantity 7 and a Sale with totalPrice 22.50. -/
theorem C6_sale_success_effect_witness :
    findById (recordSale w6Store 5 true true 7 3 (7.5 : Rat)).1 7 =
      some { w6Product with quantity := 7 } ∧
    (mkSaleDoc w6Product 3 (7.5 : Rat) 5).totalPrice = (22.5 : Rat) := by
  have h := C6_sale_success_effect w6Store 5 7 3 (7.5 : Rat) w6Product rfl
    (by decide) (by decide) (by decide) (by decide) (by decide)
  refine ⟨h.2.2.2.2, ?_⟩
  rw [h.2.2.1]
  decide

/-- C7: recordPurchase mirrors recordSale: on an existing product it
increments the quantity by quantityPurchased with no sufficiency check and
no upper bound, appends one Purchase row with
totalPrice = unitPrice × quantityPurchased, and answers 201. -/
theorem C7_purchase_mirrors_sale (st : Store) (now : Nat) (pid : Nat) (q : Int)
    (up : Rat) (product : Product)
    (hfind : findById st pid = some product)
    (hq : 1 ≤ q) (hup : minUnitPrice ≤ up)
    (hqty : 0 ≤ product.quantity)
    (hprice : minUnitPrice ≤ product.price) (hmin : 0 ≤ product.minStockLevel) :
    (recordPurchase st now true true pid q up).2 =
        RouteResult.success 201 (mkPurchaseDoc product q up now) ∧
    (recordPurchase st now true true pid q up).1.purchases =
        st.purchases ++ [mkPurchaseDoc product q up now] ∧
    (mkPurchaseDoc product q up now).totalPrice = up * (q : Rat) ∧
    findById (recordPurchase st now true true pid q up).1 pid =
        some { product with quantity := product.quantity + q } := by
  have h := recordPurchase_success_eq st now pid q up product hfind hq hup hqty hprice hmin
  refine ⟨by rw [h], by rw [h], rfl, ?_⟩
  rw [h]
  exact find?_writeProduct _ pid st.products product hfind rfl

def w7Product : Product :=
  { id := 3, name := "Bolt", quantity := 1, price := 1, minStockLevel := 0 }

def w7Store : Store := { products := [w7Product], sales := [], purchases := [] }

/-- Witness for C7 at a restock far above the current stock (no upper
bound). -/
theorem C7_purchase_mirrors_sale_witness :
    findById (recordPurchase w7Store 9 true true 3 1000000 2).1 3 =
      some { w7Product with quantity := 1000001 } ∧
    (mkPurchaseDoc w7Product 1000000 2 9).totalPrice = 2000000 := by
  have h := C7_purchase_mirrors_sale w7Store 9 3 1000000 2 w7Product rfl
    (by decide) (by decide) (by decide) (by decide) (by decide)
  refine ⟨h.2.2.2, ?_⟩
  rw [h.2.2.1]
  norm_num

/-- C8: a recordSale of q followed by a recordPurchase of q on the same
product returns the product's quantity to its original value. -/
theorem C8_sale_then_purchase_inverse (st : Store) (now1 now2 : Nat)
    (pid : Nat) (q : Int) (up1 up2 : Rat) (product : Product)
    (hfind : findById st pid = some product)
    (hsuff : ¬ product.quantity < q)
    (hq : 1 ≤ q) (hup1 : minUnitPrice ≤ up1) (hup2 : minUnitPrice ≤ up2)
    (hprice : minUnitPrice ≤ product.price) (hmin : 0 ≤ product.minStockLevel) :
    findById ((recordPurchase (recordSale st now1 true true pid q up1).1
        now2 true true pid q up2).1) pid = some product := by
  have h1 := recordSale_success_eq st now1 pid q up1 product hfind hsuff hq hup1 hprice hmin
  have hf1 : findById (recordSale st now1 true true pid q up1).1 pid =
      some { product with quantity := product.quantity - q } := by
    rw [h1]
    exact find?_writeProduct _ pid st.products product hfind rfl
  have h2 := recordPurchase_success_eq (recordSale st now1 true true pid q up1).1
      now2 pid q up2 { product with quantity := product.quantity - q } hf1 hq hup2
      (by show (0:Int) ≤ product.quantity - q; omega) hprice hmin
  have hf2 : findById (recordPurchase (recordSale st now1 true true pid q up1).1
      now2 true true pid q up2).1 pid =
      some { product with quantity := product.quantity - q + q } := by
    rw [h2]
    exact find?_writeProduct _ pid _ _ hf1 rfl
  rw [hf2, sub_add_cancel]

def w8Product : Product :=
  { id := 2, name := "Nut", quantity := 5, price := 1, minStockLevel := 1 }

def w8Store : Store := { products := [w8Product], sales := [], purchases := [] }

/-- Witness for C8: selling 2 then purchasing 2 restores quantity 5. -/
theorem C8_sale_then_purchase_inverse_witness :
    findById ((recordPurchase (recordSale w8Store 1 true true 2 2 3).1
        4 true true 2 2 1).1) 2 = some w8Product :=
  C8_sale_then_purchase_inverse w8Store 1 4 2 2 3 1 w8Product rfl
    (by decide) (by decide) (by decide) (by decide) (by decide) (by decide)

/-- C3: when the product exists and its quantity is below the quantity
sold, recordSale answers HTTP 400, leaves the whole store (products and
both ledgers) unchanged, and the message names the product and its current
quantity. -/
theorem C3_insufficient_stock (st : Store) (now : Nat) (a b : Bool)
    (pid : Nat) (q : Int) (up : Rat) (product : Product)
    (hfind : findById st pid = some product)
    (hlt : product.quantity < q) :
    recordSale st now a b pid q up =
      (st, RouteResult.failure 400 ("Stock insuffisant pour " ++ product.name
        ++ ". Stock actuel: " ++ toString product.quantity ++ ".")) := by
  unfold recordSale
  rw [hfind]
  dsimp only
  rw [if_pos hlt]
  rfl

def w3Product : Product :=
  { id := 4, name := "Vis", quantity := 2, price := 1, minStockLevel := 0 }

def w3Store : Store :=
  { products := [w3Product], sales := [mkSaleDoc w3Product 1 1 0], purchases := [] }

/-- Witness for C3: selling 5 of a product with quantity 2 answers 400 with
the product's name and quantity in the message and no state change. -/
theorem C3_insufficient_stock_witness :
    findById w3Store 4 = some w3Product ∧ w3Product.quantity < 5 ∧
    recordSale w3Store 9 true true 4 5 2 =
      (w3Store, RouteResult.failure 400 "Stock insuffisant pour Vis. Stock actuel: 2.") :=
  ⟨rfl, by decide, C3_insufficient_stock w3Store 9 true true 4 5 2 w3Product rfl (by decide)⟩

def c4Product : Product :=
  { id := 1, name := "Clou", quantity := 10, price := 1, minStockLevel := 0 }

def c4Store : Store := { products := [c4Product], sales := [], purchases := [] }

/-- C4 is refuted on the code: the handler saves the Sale (or Purchase) row
first and updates the product second, so a persistence failure between the
two saves answers 500 while the new ledger row stays appended and the
quantity stays unchanged — a partial write. -/
theorem C4_partial_write_on_store_failure :
    (recordSale c4Store 0 true false 1 3 2).2 = RouteResult.failure 500 msgSaleErr ∧
    (recordSale c4Store 0 true false 1 3 2).1.sales = [mkSaleDoc c4Product 3 2 0] ∧
    (recordSale c4Store 0 true false 1 3 2).1.products = c4Store.products ∧
    (recordPurchase c4Store 0 true false 1 3 2).2 = RouteResult.failure 500 msgPurchaseErr ∧
    (recordPurchase c4Store 0 true false 1 3 2).1.purchases = [mkPurchaseDoc c4Product 3 2 0] ∧
    (recordPurchase c4Store 0 true false 1 3 2).1.products = c4Store.products := by
  decide

def c5Product : Product :=
  { id := 6, name := "Rondelle", quantity := 10, price := 1, minStockLevel := 0 }

def c5Store : Store := { products := [c5Product], sales := [], purchases := [] }

/-- C5 counterexample: quantitySold = 0 violates the schema precondition
`min: 1` on an existing product, yet the routes answer HTTP 500 (the
generic catch), not 400. -/
theorem C5_validation_counterexample :
    (recordSale c5Store 0 true true 6 0 2).2 = RouteResult.failure 500 msgSaleErr ∧
    (recordPurchase c5Store 0 true true 6 0 2).2 = RouteResult.failure 500 msgPurchaseErr := by
  decide

/-- C5 amended: on an existing product, a call whose numeric preconditions
are violated (quantity < 1 or unitPrice < 0.01) is rejected by the schema
validation at save time and surfaced as HTTP 500 by the generic catch
handler (for sales, provided the sufficiency check passed first), with the
store left unchanged. -/
theorem C5_validation_surfaced_as_500 (st : Store) (now : Nat) (a b : Bool)
    (pid : Nat) (q : Int) (up : Rat) (product : Product)
    (hfind : findById st pid = some product)
    (hbad : q < 1 ∨ up < minUnitPrice) :
    (¬ product.quantity < q →
      recordSale st now a b pid q up = (st, RouteResult.failure 500 msgSaleErr)) ∧
    recordPurchase st now a b pid q up = (st, RouteResult.failure 500 msgPurchaseErr) := by
  have hsv : saleDocValid (mkSaleDoc product q up now) = false := by
    simp only [saleDocValid, mkSaleDoc, Bool.and_eq_false_iff,
      decide_eq_false_iff_not, not_le]
    exact hbad
  have hpv : purchaseDocValid (mkPurchaseDoc product q up now) = false := by
    simp only [purchaseDocValid, mkPurchaseDoc, Bool.and_eq_false_iff,
      decide_eq_false_iff_not, not_le]
    exact hbad
  constructor
  · intro hsuff
    unfold recordSale
    rw [hfind]
    dsimp only
    rw [if_neg hsuff, if_neg (by simp [hsv])]
  · unfold recordPurchase
    rw [hfind]
    dsimp only
    rw [if_neg (by simp [hpv])]

/-- Witness for the amended C5 at quantity 0 against stock 10. -/
theorem C5_validation_surfaced_as_500_witness :
    findById c5Store 6 = some c5Product ∧ ((0:Int) < 1 ∨ (2:Rat) < minUnitPrice) ∧
    (¬ c5Product.quantity < 0 →
      recordSale c5Store 3 true true 6 0 2 = (c5Store, RouteResult.failure 500 msgSaleErr)) ∧
    recordPurchase c5Store 3 true true 6 0 2 = (c5Store, RouteResult.failure 500 msgPurchaseErr) :=
  ⟨rfl, Or.inl (by decide),
    C5_validation_surfaced_as_500 c5Store 3 true true 6 0 2 c5Product rfl (Or.inl (by decide))⟩

/-- C9: listProducts returns all products ordered by name ascending;
listSales returns all sales ordered by saleDate descending (newest first);
listPurchases returns all purchases ordered by purchaseDate descending. -/
theorem C9_listings_ordered (st : Store) :
    List.Perm (listProducts st) st.products ∧
    (listProducts st).Pairwise (fun a b => a.name ≤ b.name) ∧
    List.Perm (listSales st) st.sales ∧
    (listSales st).Pairwise (fun a b => b.saleDate ≤ a.saleDate) ∧
    List.Perm (listPurchases st) st.purchases ∧
    (listPurchases st).Pairwise (fun a b => b.purchaseDate ≤ a.purchaseDate) := by
  refine ⟨List.mergeSort_perm _ _, ?_, List.mergeSort_perm _ _, ?_,
    List.mergeSort_perm _ _, ?_⟩
  · have h := @List.sorted_mergeSort Product (fun a b => decide (a.name ≤ b.name))
      (fun a b c hab hbc => by
        simp only [decide_eq_true_eq] at *
        exact le_trans hab hbc)
      (fun a b => by simpa using le_total a.name b.name)
      st.products
    exact h.imp (fun hab => by simpa using hab)
  · have h := @List.sorted_mergeSort Sale (fun a b => decide (b.saleDate ≤ a.saleDate))
      (fun a b c hab hbc => by
        simp only [decide_eq_true_eq] at *
        exact le_trans hbc hab)
      (fun a b => by simpa using le_total b.saleDate a.saleDate)
      st.sales
    exact h.imp (fun hab => by simpa using hab)
  · have h := @List.sorted_mergeSort Purchase (fun a b => decide (b.purchaseDate ≤ a.purchaseDate))
      (fun a b c hab hbc => by
        simp only [decide_eq_true_eq] at *
        exact le_trans hbc hab)
      (fun a b => by simpa using le_total b.purchaseDate a.purchaseDate)
      st.purchases
    exact h.imp (fun hab => by simpa using hab)

/-- The full JSON body a client may send to `POST /api/sales`: besides the
three fields the handler destructures, a client may also send its own
totalPrice, productName or saleDate. -/
structure SaleRequestBody where
  productId : Nat
  quantitySold : Int
  unitPrice : Rat
  totalPrice : Option Rat
  productName : Option String
  saleDate : Option Nat
  deriving DecidableEq

/-- The `POST /api/sales` route:
`const { productId, quantitySold, unitPrice } = req.body` — only those
three fields of the body reach the handler. -/
def postSale (st : Store) (now : Nat) (saleSaveOk prodSaveOk : Bool)
    (body : SaleRequestBody) : Store × RouteResult Sale :=
  recordSale st now saleSaveOk prodSaveOk body.productId body.quantitySold body.unitPrice

/-- C10: productName, totalPrice and saleDate are derived entirely on the
server: two request bodies that agree on productId, quantitySold and
unitPrice produce identical stored state and identical responses, whatever
their other fields contain. -/
theorem C10_server_derives_sale_fields (st : Store) (now : Nat) (a b : Bool)
    (b1 b2 : SaleRequestBody)
    (h1 : b1.productId = b2.productId)
    (h2 : b1.quantitySold = b2.quantitySold)
    (h3 : b1.unitPrice = b2.unitPrice) :
    postSale st now a b b1 = postSale st now a b b2 := by
  unfold postSale
  rw [h1, h2, h3]

def w10Store : Store :=
  { products := [{ id := 9, name := "Ecrou", quantity := 4, price := 1, minStockLevel := 0 }]
    sales := []
    purchases := [] }

def w10Body1 : SaleRequestBody :=
  { productId := 9, quantitySold := 2, unitPrice := 3,
    totalPrice := none, productName := none, saleDate := none }

def w10Body2 : SaleRequestBody :=
  { productId := 9, quantitySold := 2, unitPrice := 3,
    totalPrice := some 999, productName := some "Forged", saleDate := some 123 }

/-- Witness for C10: a body with a forged totalPrice, productName and
saleDate yields exactly the same stored state and response as the honest
body. -/
theorem C10_server_derives_sale_fields_witness :
    w10Body1.productId = w10Body2.productId ∧
    w10Body1.quantitySold = w10Body2.quantitySold ∧
    w10Body1.unitPrice = w10Body2.unitPrice ∧
    w10Body1 ≠ w10Body2 ∧
    postSale w10Store 0 true true w10Body1 = postSale w10Store 0 true true w10Body2 :=
  ⟨rfl, rfl, rfl, by decide,
    C10_server_derives_sale_fields w10Store 0 true true w10Body1 w10Body2 rfl rfl rfl⟩

/-! ### Interleaving model for concurrent sales (C2)

The `POST /api/sales` handler suspends at each `await`: after
`Product.findById` (the read), after `newSale.save()` (the ledger append),
and after `product.save()` (the quantity write, computed from the
in-memory snapshot taken at the read).  A request in flight is therefore a
small state machine advanced one awaited step at a time, and Node may
interleave the steps of two in-flight requests arbitrarily.  Persistence
itself is assumed to succeed here. -/

structure SaleRequest where
  productId : Nat
  quantitySold : Int
  unitPrice : Rat
  now : Nat
  deriving DecidableEq

inductive SaleTState where
  | ready
  | readDone (snapshot : Product)
  | saleSaved (snapshot : Product) (sale : Sale)
  | finished (result : RouteResult Sale)
  deriving DecidableEq

/-- One awaited step of the sales handler for request `r` against the
shared store. -/
def saleThreadStep (r : SaleRequest) (st : Store) : SaleTState → Store × SaleTState
  | SaleTState.ready =>
    match findById st r.productId with
    | none => (st, SaleTState.finished (RouteResult.failure 404 msgSaleNotFound))
    | some product => (st, SaleTState.readDone product)
  | SaleTState.readDone product =>
    if product.quantity < r.quantitySold then
      (st, SaleTState.finished (RouteResult.failure 400 (msgInsufficient product)))
    else
      let s := mkSaleDoc product r.quantitySold r.unitPrice r.now
      if saleDocValid s then
        ({ st with sales := st.sales ++ [s] }, SaleTState.saleSaved product s)
      else
        (st, SaleTState.finished (RouteResult.failure 500 msgSaleErr))
  | SaleTState.saleSaved product s =>
    let updated := { product with quantity := product.quantity - r.quantitySold }
    if productDocValid updated then
      ({ st with products := writeProduct st.products updated },
       SaleTState.finished (RouteResult.success 201 s))
    else
      (st, SaleTState.finished (RouteResult.failure 500 msgSaleErr))
  | SaleTState.finished res => (st, SaleTState.finished res)

structure RaceState where
  store : Store
  threadA : SaleTState
  threadB : SaleTState
  deriving DecidableEq

/-- Advance thread A when `pickA`, otherwise thread B. -/
def raceStep (rA rB : SaleRequest) (s : RaceState) (pickA : Bool) : RaceState :=
  if pickA then
    { store := (saleThreadStep rA s.store s.threadA).1
      threadA := (saleThreadStep rA s.store s.threadA).2
      threadB := s.threadB }
  else
    { store := (saleThreadStep rB s.store s.threadB).1
      threadA := s.threadA
      threadB := (saleThreadStep rB s.store s.threadB).2 }

def runRace (rA rB : SaleRequest) (schedule : List Bool) (s : RaceState) : RaceState :=
  schedule.foldl (raceStep rA rB) s

def raceProduct : Product :=
  { id := 5, name := "Cle", quantity := 5, price := 1, minStockLevel := 0 }

def raceStore : Store := { products := [raceProduct], sales := [], purchases := [] }

def raceReq : SaleRequest :=
  { productId := 5, quantitySold := 5, unitPrice := 2, now := 0 }

/-- Both threads read, then both check and write. -/
def raceSchedule : List Bool := [true, false, true, true, false, false]

def raceFinal : RaceState :=
  runRace raceReq raceReq raceSchedule
    { store := raceStore, threadA := SaleTState.ready, threadB := SaleTState.ready }

def soldTotal (st : Store) : Int := (st.sales.map Sale.quantitySold).sum

/-- C2 is refuted on the code: recordSale is not serialized per product.
In the interleaving read-A, read-B, check+write-A, check+write-B, two
concurrent sales of 5 units against a stock of 5 both pass the sufficiency
check and both commit: both answer 201 and 10 units are sold from a stock
of 5. -/
theorem C2_race_oversells :
    raceFinal.threadA =
      SaleTState.finished (RouteResult.success 201 (mkSaleDoc raceProduct 5 2 0)) ∧
    raceFinal.threadB =
      SaleTState.finished (RouteResult.success 201 (mkSaleDoc raceProduct 5 2 0)) ∧
    soldTotal raceFinal.store = 10 ∧
    raceProduct.quantity = 5 := by
  decide

end StockApp
